import Mathlib

/-!
Shallow embedding of the feed ingestion and normalization engine of the
mta-rtf repository: the GTFS-realtime entity iterators and source wiring
of `mta_gtfs_realtime.py`, and the GTFS-static archive extraction and
table policies of `mta_gtfs_static.py`.  Network calls and the ambient
clock are made explicit parameters; everything else follows the Python
source line by line.
-/

/-! ## GTFS-realtime data model (`gtfs_realtime_pb2.FeedMessage`)

The decoded protobuf message: a header plus an ordered sequence of
entities, each entity optionally carrying a trip-update, vehicle and
alert sub-message (proto2 optional fields, so any subset can be set).
The inner content of each sub-message is opaque to the iterators under
study (it is only passed through `MessageToDict`, a structural,
field-name-preserving conversion), so it is modelled as an opaque
payload string. -/

/-- Opaque content of a decoded `trip_update` sub-message. -/
structure TripUpdateMsg where
  data : String
deriving DecidableEq, Repr

/-- Opaque content of a decoded `vehicle` (vehicle position) sub-message. -/
structure VehiclePositionMsg where
  data : String
deriving DecidableEq, Repr

/-- Opaque content of a decoded `alert` sub-message. -/
structure AlertMsg where
  data : String
deriving DecidableEq, Repr

/-- One `FeedEntity` of a decoded feed message: an id plus the three
optional sub-messages; `entity.HasField("trip_update")` is `isSome` of
the corresponding field. -/
structure FeedEntity where
  id : String
  trip_update : Option TripUpdateMsg
  vehicle : Option VehiclePositionMsg
  alert : Option AlertMsg
deriving DecidableEq, Repr

/-- A decoded `FeedMessage`: header metadata plus the ordered entity list. -/
structure FeedMessage where
  header : String
  entity : List FeedEntity
deriving DecidableEq, Repr

/-- Payload slot of a normalized record: the dict emitted by the iterators
has exactly one of the keys `trip_update`, `vehicle`, `alert`, holding the
`MessageToDict` conversion of that sub-message (carried here as the
sub-message itself, since the conversion is structural and opaque to every
claim under study). -/
inductive RecordPayload where
  | trip_update (tu : TripUpdateMsg)
  | vehicle (vp : VehiclePositionMsg)
  | alert (al : AlertMsg)
deriving DecidableEq, Repr

/-- The flat dict yielded by `_iter_trip_updates` / `_iter_vehicle_positions`
/ `_iter_alerts`: `{"feed": ..., "entity_id": ..., "as_of": ..., <kind>: ...}`. -/
structure NormalizedRecord where
  feed : String
  entity_id : String
  as_of : String
  payload : RecordPayload
deriving DecidableEq, Repr

/-! ## Entity iterators (`mta_gtfs_realtime.py`, lines 42–78)

Each Python generator computes `as_of = datetime.datetime.utcnow().isoformat()`
once when it starts and then walks `feed_msg.entity` in order, skipping
entities whose relevant field is unset (`continue`) and yielding one flat
dict for each entity whose field is set.  The single `utcnow()` capture is
made explicit as the `as_of` argument. -/

/-- Record built for one matching entity by `_iter_trip_updates`;
the `getD` default is never reached on entities whose field is set. -/
def mk_trip_update_record (as_of feed_name : String) (e : FeedEntity) : NormalizedRecord :=
  { feed := feed_name, entity_id := e.id, as_of := as_of,
    payload := .trip_update (e.trip_update.getD ⟨""⟩) }

/-- Record built for one matching entity by `_iter_vehicle_positions`. -/
def mk_vehicle_record (as_of feed_name : String) (e : FeedEntity) : NormalizedRecord :=
  { feed := feed_name, entity_id := e.id, as_of := as_of,
    payload := .vehicle (e.vehicle.getD ⟨""⟩) }

/-- Record built for one matching entity by `_iter_alerts`. -/
def mk_alert_record (as_of feed_name : String) (e : FeedEntity) : NormalizedRecord :=
  { feed := feed_name, entity_id := e.id, as_of := as_of,
    payload := .alert (e.alert.getD ⟨""⟩) }

/-- Embedding of `_iter_trip_updates(feed_name, feed_msg)`, with the
generator's single `utcnow().isoformat()` capture passed in as `as_of`. -/
def iter_trip_updates (as_of feed_name : String) (feed_msg : FeedMessage) :
    List NormalizedRecord :=
  feed_msg.entity.filterMap fun e =>
    match e.trip_update with
    | none => none
    | some tu => some { feed := feed_name, entity_id := e.id, as_of := as_of,
                        payload := .trip_update tu }

/-- Embedding of `_iter_vehicle_positions(feed_name, feed_msg)`. -/
def iter_vehicle_positions (as_of feed_name : String) (feed_msg : FeedMessage) :
    List NormalizedRecord :=
  feed_msg.entity.filterMap fun e =>
    match e.vehicle with
    | none => none
    | some vp => some { feed := feed_name, entity_id := e.id, as_of := as_of,
                        payload := .vehicle vp }

/-- Embedding of `_iter_alerts(feed_name, feed_msg)`. -/
def iter_alerts (as_of feed_name : String) (feed_msg : FeedMessage) :
    List NormalizedRecord :=
  feed_msg.entity.filterMap fun e =>
    match e.alert with
    | none => none
    | some al => some { feed := feed_name, entity_id := e.id, as_of := as_of,
                        payload := .alert al }

/-! ## Binary feed fetch (`_download_feed`, lines 33–39)

`requests.get(url, headers=headers, timeout=30)` either raises a network
level exception before any response exists, or returns a response with a
status code and a body.  `response.raise_for_status()` raises an
`HTTPError` exactly for client errors (400–499) and server errors
(500–599); only after it returns is `response.content` handed to
`FeedMessage.ParseFromString`. -/

/-- Network-level exceptions `requests.get` can raise (no response received). -/
inductive TransportExn where
  | timeout
  | connection_failed
deriving DecidableEq, Repr

/-- Outcome of the `requests.get` call: an exception, or a response with
an HTTP status code and raw body bytes. -/
inductive HttpOutcome where
  | exn (e : TransportExn)
  | response (status : Nat) (body : List Nat)
deriving DecidableEq, Repr

/-- Errors `_download_feed` surfaces: the spec names them `TransportError`
(network failure), `UpstreamError` (the `HTTPError` from
`raise_for_status`, carrying the status) and `MalformedFeedError`
(protobuf parse failure). -/
inductive FetchError where
  | transport (e : TransportExn)
  | upstream (status : Nat)
  | malformed
deriving DecidableEq, Repr

/-- Embedding of `response.raise_for_status()`: an error for statuses in
[400, 600), nothing otherwise. -/
def raise_for_status (status : Nat) : Option FetchError :=
  if 400 ≤ status ∧ status < 600 then some (.upstream status) else none

/-- Embedding of `_download_feed`, parameterised by the protobuf decoder
(`FeedMessage.ParseFromString`, whose binary parsing is outside every
claim under study) and the outcome of the HTTP call. -/
def download_feed (decode : List Nat → Except Unit FeedMessage)
    (outcome : HttpOutcome) : Except FetchError FeedMessage :=
  match outcome with
  | .exn e => .error (.transport e)
  | .response status body =>
    match raise_for_status status with
    | some err => .error err
    | none =>
      match decode body with
      | .ok msg => .ok msg
      | .error _ => .error .malformed

/-! ## Request construction (`_download_feed`, lines 33–35)

`headers = {"x-api-key": api_key} if api_key else None`: Python truthiness,
so both `None` and the empty string produce `headers = None`. -/

/-- Header dict passed to `requests.get`. -/
def make_headers (api_key : Option String) : Option (List (String × String)) :=
  match api_key with
  | some k => if k = "" then none else some [("x-api-key", k)]
  | none => none

/-- The observable shape of the `requests.get` call made by `_download_feed`. -/
structure HttpRequest where
  url : String
  headers : Option (List (String × String))
  timeout : Nat
deriving DecidableEq, Repr

/-- Request `_download_feed(url, api_key)` sends. -/
def build_request (url : String) (api_key : Option String) : HttpRequest :=
  { url := url, headers := make_headers api_key, timeout := 30 }

/-! ## Feed registry and source wiring (`mta_gtfs_realtime.py`, lines 13–30, 93–113) -/

/-- The `FEED_URLS` module constant, in its Python dict insertion order
(dict enumeration order in Python 3 is insertion order). -/
def FEED_URLS : List (String × String) := [
  ("ace", "https://api-endpoint.mta.info/Dataservice/mtagtfsfeeds/nyct%2Fgtfs-ace"),
  ("bdfm", "https://api-endpoint.mta.info/Dataservice/mtagtfsfeeds/nyct%2Fgtfs-bdfm"),
  ("g", "https://api-endpoint.mta.info/Dataservice/mtagtfsfeeds/nyct%2Fgtfs-g"),
  ("jz", "https://api-endpoint.mta.info/Dataservice/mtagtfsfeeds/nyct%2Fgtfs-jz"),
  ("l", "https://api-endpoint.mta.info/Dataservice/mtagtfsfeeds/nyct%2Fgtfs-l"),
  ("nqrw", "https://api-endpoint.mta.info/Dataservice/mtagtfsfeeds/nyct%2Fgtfs-nqrw"),
  ("main", "https://api-endpoint.mta.info/Dataservice/mtagtfsfeeds/nyct%2Fgtfs"),
  ("sir", "https://api-endpoint.mta.info/Dataservice/mtagtfsfeeds/nyct%2Fgtfs-si")]

/-- Dict lookup `FEED_URLS[feed_name]`: `some url` when the key is known,
`none` where Python raises `KeyError(feed_name)`. -/
def feed_url_lookup (name : String) : Option String :=
  (FEED_URLS.find? fun p => p.1 == name).map Prod.snd

/-- Embedding of `selected = feeds or list(FEED_URLS.keys())`: both `None`
and the empty list are falsy and fall back to all known keys. -/
def selected_feeds (feeds : Option (List String)) : List String :=
  match feeds with
  | some (f :: fs) => f :: fs
  | _ => FEED_URLS.map Prod.fst

/-- A resolved feed: logical name plus upstream URL (the spec's Feed). -/
structure Feed where
  name : String
  url : String
deriving DecidableEq, Repr

/-- Errors a resource run can surface: the `KeyError` from
`FEED_URLS[feed_name]` (the spec's `UnknownFeedError`, carrying the
offending name) or a `_download_feed` failure. -/
inductive RunError where
  | unknownFeed (name : String)
  | fetch (e : FetchError)
deriving DecidableEq, Repr

/-- Feed resolution as performed by `mta_rt_source` and its resources:
`selected = feeds or list(FEED_URLS.keys())` followed by the
`FEED_URLS[feed_name]` lookup each resource performs per name; an unknown
name raises `KeyError(name)`, embedded as `RunError.unknownFeed`. -/
def resolve_feeds (feeds : Option (List String)) : Except RunError (List Feed) :=
  (selected_feeds feeds).mapM fun n =>
    match feed_url_lookup n with
    | some u => .ok (⟨n, u⟩ : Feed)
    | none => .error (.unknownFeed n)

/-- All feeds of the registry in enumeration order. -/
def all_feeds : List Feed := FEED_URLS.map fun p => ⟨p.1, p.2⟩

/-- Ambient effects of one resource invocation: the network (what
`_download_feed` returns at each URL while this resource runs) and the
clock (`utcnow().isoformat()` at the start of the k-th iterator call). -/
structure RunEnv where
  fetch : String → Except FetchError FeedMessage
  nowAt : Nat → String

/-- Body of a realtime resource (`trip_updates` / `vehicle_positions` /
`alerts`): for each selected feed name, look up `FEED_URLS[feed_name]`
(KeyError on unknown names), download, and yield the iterator's records.
Consuming the Python generator to a list re-raises any exception and
returns no records, which the `Except` result models. -/
def run_resource (normalize : String → String → FeedMessage → List NormalizedRecord)
    (env : RunEnv) : Nat → List String → Except RunError (List NormalizedRecord)
  | _, [] => .ok []
  | k, name :: rest =>
    match feed_url_lookup name with
    | none => .error (.unknownFeed name)
    | some url =>
      match env.fetch url with
      | .error e => .error (.fetch e)
      | .ok msg =>
        match run_resource normalize env (k + 1) rest with
        | .error e => .error e
        | .ok tail => .ok (normalize (env.nowAt k) name msg ++ tail)

/-- The `trip_updates` resource of `mta_rt_source`. -/
def trip_updates_resource (env : RunEnv) (feeds : Option (List String)) :
    Except RunError (List NormalizedRecord) :=
  run_resource iter_trip_updates env 0 (selected_feeds feeds)

/-- The `vehicle_positions` resource of `mta_rt_source`. -/
def vehicle_positions_resource (env : RunEnv) (feeds : Option (List String)) :
    Except RunError (List NormalizedRecord) :=
  run_resource iter_vehicle_positions env 0 (selected_feeds feeds)

/-- The `alerts` resource of `mta_rt_source`. -/
def alerts_resource (env : RunEnv) (feeds : Option (List String)) :
    Except RunError (List NormalizedRecord) :=
  run_resource iter_alerts env 0 (selected_feeds feeds)

/-! ## Tabular extraction (`mta_gtfs_static.py`, `_iter_csv`, lines 24–29)

`csv.DictReader` reads the first row as `fieldnames` and for each later
row builds `dict(zip(fieldnames, row))`; a row longer than the header gets
its extra cells collected in a list under the `restkey` key `None`, a row
shorter than the header gets every missing column filled with the
`restval` default `None`, and a blank row (which `csv.reader` yields as
the empty list) is skipped.  `_iter_csv` then maps every value `v` to
`None` when `v == ""` and keeps it otherwise. -/

/-- Value of one cell after `DictReader` and the `_iter_csv` coercion:
a string, Python `None`, or the `restkey` overflow list. -/
inductive CsvVal where
  | str (v : String)
  | null
  | rest (vs : List String)
deriving DecidableEq, Repr

/-- Comma splitting of one text line, accumulator style; faithful to the
`csv` module for lines without quotes or escaped delimiters, which is the
only shape the claims under study exercise. -/
def split_fields_aux (cur : List Char) : List Char → List String
  | [] => [String.mk cur.reverse]
  | c :: cs =>
    if c = ',' then String.mk cur.reverse :: split_fields_aux [] cs
    else split_fields_aux (c :: cur) cs

/-- One parsed `csv.reader` row: the empty list for a blank line, the
comma-separated cells otherwise. -/
def csv_row (line : String) : List String :=
  if line = "" then [] else split_fields_aux [] line.data

/-- The dict `csv.DictReader` builds for one data row: `zip(fieldnames, row)`
pairs, then either the `restkey` entry (key `None`, extra cells as a list)
when the row is longer than the header, or `restval` `None` entries for the
missing trailing columns when it is shorter.  Keys are `Option String`,
with `none` playing the Python `None` restkey. -/
def dict_reader_row (fieldnames row : List String) : List (Option String × CsvVal) :=
  (fieldnames.zip row).map (fun p => (some p.1, CsvVal.str p.2))
    ++ (if fieldnames.length < row.length
        then [(none, CsvVal.rest (row.drop fieldnames.length))] else [])
    ++ (fieldnames.drop row.length).map fun k => (some k, CsvVal.null)

/-- The comprehension `{k: (v if v != "" else None) for k, v in row.items()}`
applied to one value. -/
def coerce_empty : CsvVal → CsvVal
  | .str v => if v = "" then .null else .str v
  | v => v

/-- One row as yielded by `_iter_csv`: the `DictReader` dict with every
empty-string value coerced to `None`. -/
def iter_csv_row (fieldnames row : List String) : List (Option String × CsvVal) :=
  (dict_reader_row fieldnames row).map fun p => (p.1, coerce_empty p.2)

/-- Embedding of `_iter_csv` on the member's text lines: the first line is
the header, blank rows are skipped, every other row yields one coerced dict. -/
def iter_csv (lines : List String) : List (List (Option String × CsvVal)) :=
  match lines with
  | [] => []
  | header :: rows =>
    (rows.map csv_row).filterMap fun row =>
      if row = [] then none else some (iter_csv_row (csv_row header) row)

/-! ## Table policies (`mta_gtfs_static.py`, `mta_static_source`, lines 39–59) -/

/-- A dlt `write_disposition` as used by the static source. -/
inductive WriteDisposition where
  | append
  | merge
deriving DecidableEq, Repr

/-- Load policy of one resource: optional `primary_key` plus disposition. -/
structure TablePolicy where
  primary_key : Option String
  write_disposition : WriteDisposition
deriving DecidableEq, Repr

/-- The five resources of `mta_static_source` with the `primary_key` and
`write_disposition` of their `@dlt.resource` decorators, in source order. -/
def static_resources : List (String × TablePolicy) := [
  ("routes", ⟨some "route_id", .merge⟩),
  ("stops", ⟨some "stop_id", .merge⟩),
  ("trips", ⟨some "trip_id", .merge⟩),
  ("stop_times", ⟨none, .append⟩),
  ("calendar", ⟨some "service_id", .merge⟩)]

/-- Error of the table-policy lookup, the spec's `UnknownTableError`. -/
inductive TableError where
  | unknownTable (name : String)
deriving DecidableEq, Repr

/-- Modelled from the spec: the Table Classifier lookup `policy_for` of
spec section 4.7 has no standalone function in the source; its policy
table is taken verbatim from the `@dlt.resource` decorators of
`mta_static_source` (the code's fixed resource set), and a name outside
that set fails with `UnknownTableError` naming it. -/
def policy_for (table : String) : Except TableError TablePolicy :=
  match static_resources.find? (fun p => p.1 == table) with
  | some p => .ok p.2
  | none => .error (.unknownTable table)

/-! ## Concrete sample data used to instantiate the theorems -/

/-- Sample trip-update sub-message. -/
def tu0 : TripUpdateMsg := ⟨"tu"⟩

/-- Sample vehicle-position sub-message. -/
def vp0 : VehiclePositionMsg := ⟨"vp"⟩

/-- Sample entity carrying only a trip update. -/
def entity_tu : FeedEntity := ⟨"E1", some tu0, none, none⟩

/-- Sample entity carrying only a vehicle position. -/
def entity_vp : FeedEntity := ⟨"E2", none, some vp0, none⟩

/-- Sample entity whose `trip_update` and `vehicle` fields are both set. -/
def entity_both : FeedEntity := ⟨"E3", some tu0, some vp0, none⟩

/-- Sample decoded snapshot mixing the three entities above. -/
def msg_sample : FeedMessage := ⟨"hdr", [entity_tu, entity_vp, entity_both]⟩

/-- Sample snapshot with no trip-update entity. -/
def msg_vp_only : FeedMessage := ⟨"hdr", [entity_vp]⟩

/-- Sample run environment: every download succeeds with `msg_sample`. -/
def env_sample : RunEnv :=
  { fetch := fun _ => .ok msg_sample,
    nowAt := fun k => if k = 0 then "t0" else "t1" }

/-- Sample protobuf decoder used to instantiate `download_feed`. -/
def decode_const : List Nat → Except Unit FeedMessage := fun _ => .ok msg_sample

/-! ## Helper lemmas -/

/-- A filterMap whose function is a filter-then-build pattern is the map of
the filter; this is exactly the shape of the three entity iterators. -/
theorem filterMap_eq_map_filter {α β : Type} (g : α → Option β) (p : α → Bool) (f : α → β)
    (h : ∀ a, g a = if p a then some (f a) else none) :
    ∀ l : List α, l.filterMap g = (l.filter p).map f := by
  intro l
  induction l with
  | nil => rfl
  | cons a t ih =>
    cases hpa : p a with
    | true => simp [List.filterMap_cons, List.filter_cons, h a, hpa, ih]
    | false => simp [List.filterMap_cons, List.filter_cons, h a, hpa, ih]

/-- The trip-update iterator is the map of the `HasField` filter. -/
theorem iter_trip_updates_eq (as_of feed_name : String) (m : FeedMessage) :
    iter_trip_updates as_of feed_name m =
      (m.entity.filter fun e => e.trip_update.isSome).map
        (mk_trip_update_record as_of feed_name) := by
  unfold iter_trip_updates
  refine filterMap_eq_map_filter _ _ _ (fun e => ?_) m.entity
  cases h : e.trip_update with
  | none => simp [h]
  | some tu => simp [h, mk_trip_update_record]

/-- The vehicle-position iterator is the map of the `HasField` filter. -/
theorem iter_vehicle_positions_eq (as_of feed_name : String) (m : FeedMessage) :
    iter_vehicle_positions as_of feed_name m =
      (m.entity.filter fun e => e.vehicle.isSome).map
        (mk_vehicle_record as_of feed_name) := by
  unfold iter_vehicle_positions
  refine filterMap_eq_map_filter _ _ _ (fun e => ?_) m.entity
  cases h : e.vehicle with
  | none => simp [h]
  | some vp => simp [h, mk_vehicle_record]

/-- The alert iterator is the map of the `HasField` filter. -/
theorem iter_alerts_eq (as_of feed_name : String) (m : FeedMessage) :
    iter_alerts as_of feed_name m =
      (m.entity.filter fun e => e.alert.isSome).map
        (mk_alert_record as_of feed_name) := by
  unfold iter_alerts
  refine filterMap_eq_map_filter _ _ _ (fun e => ?_) m.entity
  cases h : e.alert with
  | none => simp [h]
  | some al => simp [h, mk_alert_record]

/-- Every record of one trip-update iterator call carries that call's `as_of`. -/
theorem mem_iter_trip_updates_as_of {as_of feed_name : String} {m : FeedMessage}
    {r : NormalizedRecord} (hr : r ∈ iter_trip_updates as_of feed_name m) :
    r.as_of = as_of := by
  rw [iter_trip_updates_eq] at hr
  rcases List.mem_map.mp hr with ⟨e, _, rfl⟩
  rfl

/-- Every record of one vehicle-position iterator call carries that call's `as_of`. -/
theorem mem_iter_vehicle_positions_as_of {as_of feed_name : String} {m : FeedMessage}
    {r : NormalizedRecord} (hr : r ∈ iter_vehicle_positions as_of feed_name m) :
    r.as_of = as_of := by
  rw [iter_vehicle_positions_eq] at hr
  rcases List.mem_map.mp hr with ⟨e, _, rfl⟩
  rfl

/-- Every record of one alert iterator call carries that call's `as_of`. -/
theorem mem_iter_alerts_as_of {as_of feed_name : String} {m : FeedMessage}
    {r : NormalizedRecord} (hr : r ∈ iter_alerts as_of feed_name m) :
    r.as_of = as_of := by
  rw [iter_alerts_eq] at hr
  rcases List.mem_map.mp hr with ⟨e, _, rfl⟩
  rfl

/-- A resource run over a name list containing an unknown feed never
returns a record list: either the `KeyError` or an earlier failure stops it. -/
theorem run_resource_not_ok
    (normalize : String → String → FeedMessage → List NormalizedRecord) (env : RunEnv) :
    ∀ (k : Nat) (names : List String), (∃ n ∈ names, feed_url_lookup n = none) →
      ∀ recs, run_resource normalize env k names ≠ .ok recs := by
  intro k names
  induction names generalizing k with
  | nil =>
    rintro ⟨n, hn, -⟩
    cases hn
  | cons a rest ih =>
    rintro ⟨n, hn, hlook⟩ recs
    cases hla : feed_url_lookup a with
    | none => simp [run_resource, hla]
    | some url =>
      have hmem : n ∈ rest := by
        rcases List.mem_cons.mp hn with rfl | h
        · rw [hla] at hlook; cases hlook
        · exact h
      cases hf : env.fetch url with
      | error e => simp [run_resource, hla, hf]
      | ok msg =>
        cases hrec : run_resource normalize env (k + 1) rest with
        | error e => simp [run_resource, hla, hf, hrec]
        | ok tail => exact absurd hrec (ih (k + 1) ⟨n, hmem, hlook⟩ tail)

/-- When every download succeeds, a run over a name list containing an
unknown feed fails with the `KeyError` of the first unknown name. -/
theorem run_resource_first_unknown
    (normalize : String → String → FeedMessage → List NormalizedRecord) (env : RunEnv)
    (hfetch : ∀ url, ∃ m, env.fetch url = .ok m) :
    ∀ (k : Nat) (names : List String), (∃ n ∈ names, feed_url_lookup n = none) →
      ∃ n ∈ names, feed_url_lookup n = none
        ∧ run_resource normalize env k names = .error (.unknownFeed n) := by
  intro k names
  induction names generalizing k with
  | nil =>
    rintro ⟨n, hn, -⟩
    cases hn
  | cons a rest ih =>
    rintro ⟨n, hn, hlook⟩
    cases hla : feed_url_lookup a with
    | none =>
      exact ⟨a, List.mem_cons_self a rest, hla, by simp [run_resource, hla]⟩
    | some url =>
      have hmem : n ∈ rest := by
        rcases List.mem_cons.mp hn with rfl | h
        · rw [hla] at hlook; cases hlook
        · exact h
      rcases hfetch url with ⟨msg, hmsg⟩
      rcases ih (k + 1) ⟨n, hmem, hlook⟩ with ⟨n₂, hn₂, hl₂, hrun⟩
      exact ⟨n₂, List.mem_cons_of_mem a hn₂, hl₂,
        by simp [run_resource, hla, hmsg, hrun]⟩

/-! ## Claim theorems -/

/-- C1: for every decoded snapshot, feed name and requested kind, the
iterator yields exactly the entities whose sub-message of that kind is
populated, in the snapshot's original entity order (the map of the stable
filter, hence no reordering and no deduplication); the record count equals
the count of matching entities, and a snapshot with no matching entity
yields the empty list rather than failing. -/
theorem C1_normalizer_exact (as_of feed_name : String) (m : FeedMessage) :
    (iter_trip_updates as_of feed_name m =
        (m.entity.filter fun e => e.trip_update.isSome).map
          (mk_trip_update_record as_of feed_name)
      ∧ (iter_trip_updates as_of feed_name m).length =
          m.entity.countP (fun e => e.trip_update.isSome)
      ∧ ((∀ e ∈ m.entity, e.trip_update.isSome = false) →
          iter_trip_updates as_of feed_name m = []))
    ∧ (iter_vehicle_positions as_of feed_name m =
        (m.entity.filter fun e => e.vehicle.isSome).map
          (mk_vehicle_record as_of feed_name)
      ∧ (iter_vehicle_positions as_of feed_name m).length =
          m.entity.countP (fun e => e.vehicle.isSome)
      ∧ ((∀ e ∈ m.entity, e.vehicle.isSome = false) →
          iter_vehicle_positions as_of feed_name m = []))
    ∧ (iter_alerts as_of feed_name m =
        (m.entity.filter fun e => e.alert.isSome).map
          (mk_alert_record as_of feed_name)
      ∧ (iter_alerts as_of feed_name m).length =
          m.entity.countP (fun e => e.alert.isSome)
      ∧ ((∀ e ∈ m.entity, e.alert.isSome = false) →
          iter_alerts as_of feed_name m = [])) := by
  refine ⟨⟨iter_trip_updates_eq as_of feed_name m, ?_, ?_⟩,
          ⟨iter_vehicle_positions_eq as_of feed_name m, ?_, ?_⟩,
          ⟨iter_alerts_eq as_of feed_name m, ?_, ?_⟩⟩
  · rw [iter_trip_updates_eq, List.length_map, ← List.countP_eq_length_filter]
  · intro h
    rw [iter_trip_updates_eq, List.filter_eq_nil_iff.mpr (by simpa using h), List.map_nil]
  · rw [iter_vehicle_positions_eq, List.length_map, ← List.countP_eq_length_filter]
  · intro h
    rw [iter_vehicle_positions_eq, List.filter_eq_nil_iff.mpr (by simpa using h), List.map_nil]
  · rw [iter_alerts_eq, List.length_map, ← List.countP_eq_length_filter]
  · intro h
    rw [iter_alerts_eq, List.filter_eq_nil_iff.mpr (by simpa using h), List.map_nil]

/-- Witness for C1 at a concrete snapshot with no trip-update entity. -/
theorem C1_normalizer_exact_witness :
    (∀ e ∈ msg_vp_only.entity, e.trip_update.isSome = false)
    ∧ iter_trip_updates "t" "ace" msg_vp_only = [] :=
  ⟨by decide, (C1_normalizer_exact "t" "ace" msg_vp_only).1.2.2 (by decide)⟩

/-- C5: every record produced from a single iterator invocation (one fetch
of one feed) carries that invocation's `as_of` capture, for all three
kinds; and records of two distinct invocations carry their own captures,
so two different invocations (for example trip updates and then vehicle
positions for the same feed) can carry different `as_of` values. -/
theorem C5_as_of_per_fetch :
    (∀ as_of feed_name m r, r ∈ iter_trip_updates as_of feed_name m → r.as_of = as_of)
    ∧ (∀ as_of feed_name m r, r ∈ iter_vehicle_positions as_of feed_name m → r.as_of = as_of)
    ∧ (∀ as_of feed_name m r, r ∈ iter_alerts as_of feed_name m → r.as_of = as_of)
    ∧ (∀ t₁ t₂ feed_name m r₁ r₂, r₁ ∈ iter_trip_updates t₁ feed_name m →
        r₂ ∈ iter_vehicle_positions t₂ feed_name m → t₁ ≠ t₂ → r₁.as_of ≠ r₂.as_of) := by
  refine ⟨fun _ _ _ _ hr => mem_iter_trip_updates_as_of hr,
          fun _ _ _ _ hr => mem_iter_vehicle_positions_as_of hr,
          fun _ _ _ _ hr => mem_iter_alerts_as_of hr,
          fun t₁ t₂ feed_name m r₁ r₂ h₁ h₂ hne => ?_⟩
  rw [mem_iter_trip_updates_as_of h₁, mem_iter_vehicle_positions_as_of h₂]
  exact hne

/-- Witness for C5: one trip-update record and one vehicle-position record
of two invocations over the same snapshot at different capture times. -/
theorem C5_as_of_per_fetch_witness :
    mk_trip_update_record "tA" "ace" entity_tu ∈ iter_trip_updates "tA" "ace" msg_sample
    ∧ mk_vehicle_record "tB" "ace" entity_vp ∈ iter_vehicle_positions "tB" "ace" msg_sample
    ∧ ("tA" : String) ≠ "tB"
    ∧ (mk_trip_update_record "tA" "ace" entity_tu).as_of ≠
        (mk_vehicle_record "tB" "ace" entity_vp).as_of :=
  ⟨by decide, by decide, by decide,
    C5_as_of_per_fetch.2.2.2 "tA" "tB" "ace" msg_sample _ _ (by decide) (by decide) (by decide)⟩

/-- C10: for a snapshot holding one entity, a record of kind K is emitted
exactly when the entity's K sub-message is populated, independently of the
other fields; an entity with both `trip_update` and `vehicle` populated is
emitted once by the trip-update iterator and once by the vehicle-position
iterator, not classified into exactly one variant. -/
theorem C10_kind_membership (as_of feed_name hdr : String) (e : FeedEntity) :
    ((iter_trip_updates as_of feed_name ⟨hdr, [e]⟩ ≠ []) ↔ e.trip_update.isSome = true)
    ∧ ((iter_vehicle_positions as_of feed_name ⟨hdr, [e]⟩ ≠ []) ↔ e.vehicle.isSome = true)
    ∧ ((iter_alerts as_of feed_name ⟨hdr, [e]⟩ ≠ []) ↔ e.alert.isSome = true)
    ∧ (e.trip_update.isSome = true → e.vehicle.isSome = true →
        mk_trip_update_record as_of feed_name e ∈
          iter_trip_updates as_of feed_name ⟨hdr, [e]⟩
        ∧ mk_vehicle_record as_of feed_name e ∈
          iter_vehicle_positions as_of feed_name ⟨hdr, [e]⟩) := by
  refine ⟨?_, ?_, ?_, fun htu hvp => ⟨?_, ?_⟩⟩
  · rw [iter_trip_updates_eq]
    cases h : e.trip_update <;> simp [h]
  · rw [iter_vehicle_positions_eq]
    cases h : e.vehicle <;> simp [h]
  · rw [iter_alerts_eq]
    cases h : e.alert <;> simp [h]
  · rw [iter_trip_updates_eq]
    simp [htu]
  · rw [iter_vehicle_positions_eq]
    simp [hvp]

/-- Witness for C10 at an entity whose trip-update and vehicle fields are
both populated: it appears in both iterators' outputs. -/
theorem C10_kind_membership_witness :
    entity_both.trip_update.isSome = true
    ∧ entity_both.vehicle.isSome = true
    ∧ mk_trip_update_record "t" "ace" entity_both ∈
        iter_trip_updates "t" "ace" ⟨"hdr", [entity_both]⟩
    ∧ mk_vehicle_record "t" "ace" entity_both ∈
        iter_vehicle_positions "t" "ace" ⟨"hdr", [entity_both]⟩ :=
  ⟨by decide, by decide,
    ((C10_kind_membership "t" "ace" "hdr" entity_both).2.2.2 (by decide) (by decide)).1,
    ((C10_kind_membership "t" "ace" "hdr" entity_both).2.2.2 (by decide) (by decide)).2⟩

/-- C3: when the requested feed names contain an identifier outside
`FEED_URLS`, a resource run never returns a record list (nothing is
silently skipped, no record list is produced), and when the network is
healthy it fails exactly with the `KeyError` naming the first unknown
identifier (the spec's `UnknownFeedError`). -/
theorem C3_unknown_feed (env : RunEnv) (feeds : Option (List String))
    (h : ∃ n ∈ selected_feeds feeds, feed_url_lookup n = none) :
    (∀ recs, trip_updates_resource env feeds ≠ .ok recs)
    ∧ ((∀ url, ∃ m, env.fetch url = .ok m) →
        ∃ n ∈ selected_feeds feeds, feed_url_lookup n = none
          ∧ trip_updates_resource env feeds = .error (.unknownFeed n)) :=
  ⟨run_resource_not_ok iter_trip_updates env 0 (selected_feeds feeds) h,
    fun hfetch =>
      run_resource_first_unknown iter_trip_updates env hfetch 0 (selected_feeds feeds) h⟩

/-- Witness for C3: requesting `["ace", "bogus"]` over a healthy network
fails with the error naming `"bogus"`. -/
theorem C3_unknown_feed_witness :
    (∃ n ∈ selected_feeds (some ["ace", "bogus"]), feed_url_lookup n = none)
    ∧ trip_updates_resource env_sample (some ["ace", "bogus"]) =
        .error (.unknownFeed "bogus") := by
  refine ⟨by decide, ?_⟩
  rcases (C3_unknown_feed env_sample (some ["ace", "bogus"]) (by decide)).2
      (fun url => ⟨msg_sample, rfl⟩) with ⟨n, hn, hl, hrun⟩
  have hsel : n ∈ ["ace", "bogus"] := by simpa [selected_feeds] using hn
  have hb : n = "bogus" := by
    rcases List.mem_cons.mp hsel with rfl | h2
    · exact absurd hl (by decide)
    · rcases List.mem_cons.mp h2 with rfl | h3
      · rfl
      · cases h3
  rw [hb] at hrun
  exact hrun

/-- C8: resolving an absent or empty request returns all known feeds in
the registry's enumeration order with no duplicate names, and resolving
any single valid name yields exactly the one feed whose URL the registry
maps it to. -/
theorem C8_registry_resolution :
    resolve_feeds none = .ok all_feeds
    ∧ resolve_feeds (some []) = .ok all_feeds
    ∧ (all_feeds.map Feed.name).Nodup
    ∧ all_feeds.map Feed.name = FEED_URLS.map Prod.fst
    ∧ ∀ n u, (n, u) ∈ FEED_URLS → resolve_feeds (some [n]) = .ok [⟨n, u⟩] := by
  refine ⟨by rfl, by rfl, by decide, by rfl, fun n u h => ?_⟩
  fin_cases h <;> rfl

/-- Witness for C8 at the feed name `"ace"`. -/
theorem C8_registry_resolution_witness :
    ("ace", "https://api-endpoint.mta.info/Dataservice/mtagtfsfeeds/nyct%2Fgtfs-ace")
      ∈ FEED_URLS
    ∧ resolve_feeds (some ["ace"]) =
        .ok [⟨"ace", "https://api-endpoint.mta.info/Dataservice/mtagtfsfeeds/nyct%2Fgtfs-ace"⟩] :=
  ⟨by decide, C8_registry_resolution.2.2.2.2 "ace"
    "https://api-endpoint.mta.info/Dataservice/mtagtfsfeeds/nyct%2Fgtfs-ace" (by decide)⟩

/-- C6: a response whose status `raise_for_status` treats as an error
(client errors 400–499 and server errors 500–599, covering every
non-success status the library reports) makes the fetch fail with the
upstream error carrying that status, and a network-level exception makes
it fail with the transport error; in both failure cases the result is the
same for every decoder, so the body is never handed to the decoder. -/
theorem C6_fetch_failures (decode decode₂ : List Nat → Except Unit FeedMessage)
    (status : Nat) (body : List Nat) (e : TransportExn) :
    (400 ≤ status → status < 600 →
      download_feed decode (.response status body) = .error (.upstream status)
      ∧ download_feed decode (.response status body) =
          download_feed decode₂ (.response status body))
    ∧ download_feed decode (.exn e) = .error (.transport e)
    ∧ download_feed decode (.exn e) = download_feed decode₂ (.exn e) := by
  refine ⟨fun h4 h6 => ?_, rfl, rfl⟩
  have hcond : 400 ≤ status ∧ status < 600 := ⟨h4, h6⟩
  constructor
  · simp [download_feed, raise_for_status, hcond]
  · simp [download_feed, raise_for_status, hcond]

/-- Witness for C6 at a 404 response: the fetch fails with the upstream
error carrying 404. -/
theorem C6_fetch_failures_witness :
    400 ≤ 404 ∧ 404 < 600
    ∧ download_feed decode_const (.response 404 [10, 20]) = .error (.upstream 404) :=
  ⟨by decide, by decide,
    ((C6_fetch_failures decode_const decode_const 404 [10, 20] .timeout).1
      (by decide) (by decide)).1⟩

/-- C9: an empty-string API key is falsy in the header-building
conditional, so the request carries no `x-api-key` header and is identical
to the request built with no key at all. -/
theorem C9_empty_api_key (url : String) :
    build_request url (some "") = build_request url none
    ∧ (build_request url (some "")).headers = none := by
  exact ⟨rfl, rfl⟩

/-- Unfolding of the `DictReader` dict one column at a time. -/
theorem dict_reader_row_cons (f r : String) (fs rs : List String) :
    dict_reader_row (f :: fs) (r :: rs) = (some f, CsvVal.str r) :: dict_reader_row fs rs := by
  simp [dict_reader_row, Nat.succ_lt_succ_iff]

/-- For a data row with exactly the header's column count, the yielded
row's keys are precisely the header-derived column names, in order. -/
theorem map_fst_iter_csv_row :
    ∀ fieldnames row : List String, row.length = fieldnames.length →
      (iter_csv_row fieldnames row).map Prod.fst = fieldnames.map some := by
  intro fieldnames
  induction fieldnames with
  | nil =>
    intro row hlen
    rw [List.length_nil, List.length_eq_zero] at hlen
    subst hlen
    rfl
  | cons f fs ih =>
    intro row hlen
    cases row with
    | nil => simp at hlen
    | cons r rs =>
      simp only [iter_csv_row, dict_reader_row_cons, List.map_cons]
      have htail := ih rs (by simpa using hlen)
      simp only [iter_csv_row] at htail
      simp [htail]

/-- C2: every value yielded by the extractor is never the empty string
(an empty raw cell is coerced to null); for a data row with the header's
column count the yielded mapping is keyed exactly by the header-derived
column names; and the row `"1,,"` under header `"id,name,note"` yields
`{id: "1", name: null, note: null}`. -/
theorem C2_empty_string_to_null :
    (∀ lines rec kv, rec ∈ iter_csv lines → kv ∈ rec →
      ∀ v, kv.2 = CsvVal.str v → v ≠ "")
    ∧ (∀ fieldnames row : List String, row.length = fieldnames.length →
        (iter_csv_row fieldnames row).map Prod.fst = fieldnames.map some)
    ∧ iter_csv ["id,name,note", "1,,"] =
        [[(some "id", CsvVal.str "1"), (some "name", CsvVal.null),
          (some "note", CsvVal.null)]] := by
  refine ⟨?_, map_fst_iter_csv_row, by decide⟩
  intro lines rec kv hrec hkv v hv
  have hkv2 : ∃ w, coerce_empty w = kv.2 := by
    cases lines with
    | nil => cases hrec
    | cons header rows =>
      simp only [iter_csv] at hrec
      rcases List.mem_filterMap.mp hrec with ⟨row, hrow, hif⟩
      by_cases hr0 : row = []
      · rw [if_pos hr0] at hif; cases hif
      · rw [if_neg hr0] at hif
        injection hif with hif
        subst hif
        rcases List.mem_map.mp hkv with ⟨p, hp, rfl⟩
        exact ⟨p.2, rfl⟩
  rcases hkv2 with ⟨w, hw⟩
  rw [← hw] at hv
  cases w with
  | str s =>
    by_cases hs : s = ""
    · simp [coerce_empty, hs] at hv
    · simp [coerce_empty, hs] at hv
      subst hv
      exact hs
  | null => simp [coerce_empty] at hv
  | rest vs => simp [coerce_empty] at hv

/-- Witness for C2 at the concrete header and row of the claim. -/
theorem C2_empty_string_to_null_witness :
    (["1", "", ""] : List String).length = (["id", "name", "note"] : List String).length
    ∧ (iter_csv_row ["id", "name", "note"] ["1", "", ""]).map Prod.fst =
        (["id", "name", "note"] : List String).map some :=
  ⟨by decide, C2_empty_string_to_null.2.1 ["id", "name", "note"] ["1", "", ""] (by decide)⟩

/-- C7 counterexample: under header `"id,name,note"` the two-cell data row
`"1,x"` does not make extraction fail; `DictReader` pads the missing
`note` column with null and the row is yielded. -/
theorem C7_counterexample :
    iter_csv ["id,name,note", "1,x"] =
      [[(some "id", CsvVal.str "1"), (some "name", CsvVal.str "x"),
        (some "note", CsvVal.null)]] := by
  decide

/-- C7 amended: a data row with fewer cells than the header is yielded with
every missing trailing column filled with null (the row still has exactly
the header's column count), and a row with more cells than the header is
yielded with the extra cells collected in a list under the restkey `none`;
no row-shape error exists. -/
theorem C7_row_shape_mismatch (fieldnames row : List String) :
    (row.length < fieldnames.length →
      (iter_csv_row fieldnames row).length = fieldnames.length
      ∧ ∀ k ∈ fieldnames.drop row.length,
          (some k, CsvVal.null) ∈ iter_csv_row fieldnames row)
    ∧ (fieldnames.length < row.length →
        (none, CsvVal.rest (row.drop fieldnames.length)) ∈ iter_csv_row fieldnames row) := by
  constructor
  · intro hlt
    have hnotlt : ¬ fieldnames.length < row.length := by omega
    constructor
    · simp only [iter_csv_row, dict_reader_row, if_neg hnotlt, List.length_map,
        List.length_append, List.length_zip, List.length_drop, List.length_nil]
      omega
    · intro k hk
      have h1 : (some k, CsvVal.null) ∈ dict_reader_row fieldnames row := by
        simp only [dict_reader_row, if_neg hnotlt, List.append_nil, List.mem_append]
        right
        exact List.mem_map_of_mem _ hk
      have h2 := List.mem_map_of_mem (fun p => (p.1, coerce_empty p.2)) h1
      simpa [iter_csv_row, coerce_empty] using h2
  · intro hlt
    have h1 : (none, CsvVal.rest (row.drop fieldnames.length)) ∈
        dict_reader_row fieldnames row := by
      simp only [dict_reader_row, if_pos hlt, List.mem_append, List.mem_singleton]
      left; right
      trivial
    have h2 := List.mem_map_of_mem (fun p => (p.1, coerce_empty p.2)) h1
    simpa [iter_csv_row, coerce_empty] using h2

/-- Witness for the amended C7 at a one-cell row under a three-column header. -/
theorem C7_row_shape_mismatch_witness :
    (["1"] : List String).length < (["id", "name", "note"] : List String).length
    ∧ (iter_csv_row ["id", "name", "note"] ["1"]).length =
        (["id", "name", "note"] : List String).length :=
  ⟨by decide, ((C7_row_shape_mismatch ["id", "name", "note"] ["1"]).1 (by decide)).1⟩

/-- C4: the policy lookup returns upsert (merge) keyed by the natural id
column for routes, stops, trips and calendar, append with no key for
stop_times, and fails with the unknown-table error for every name outside
the fixed five-table set. -/
theorem C4_table_policies :
    policy_for "routes" = .ok ⟨some "route_id", .merge⟩
    ∧ policy_for "stops" = .ok ⟨some "stop_id", .merge⟩
    ∧ policy_for "trips" = .ok ⟨some "trip_id", .merge⟩
    ∧ policy_for "calendar" = .ok ⟨some "service_id", .merge⟩
    ∧ policy_for "stop_times" = .ok ⟨none, .append⟩
    ∧ ∀ t, t ∉ ["routes", "stops", "trips", "stop_times", "calendar"] →
        policy_for t = .error (.unknownTable t) := by
  refine ⟨rfl, rfl, rfl, rfl, rfl, fun t ht => ?_⟩
  unfold policy_for
  cases hf : static_resources.find? (fun p => p.1 == t) with
  | none => rfl
  | some p =>
    exfalso
    have hp := List.mem_of_find?_eq_some hf
    have hpt : p.1 = t := by simpa using List.find?_some hf
    apply ht
    rw [← hpt]
    fin_cases hp <;> simp

/-- Witness for C4 at the name `"unknown_table"`. -/
theorem C4_table_policies_witness :
    "unknown_table" ∉ ["routes", "stops", "trips", "stop_times", "calendar"]
    ∧ policy_for "unknown_table" = .error (.unknownTable "unknown_table") :=
  ⟨by decide, C4_table_policies.2.2.2.2.2 "unknown_table" (by decide)⟩
